import Mathlib

/-!
Verification development for the realtime voice pipeline's resilient
dispatch layer: the circuit breaker (`app/utils/circuit_breaker.py`),
the dedup cache (`app/services/cache_service.py`), the audio normalizer
(`app/services/audio_processor.py`), and the request dispatch flows of
`app/main.py` (REST `/api/tts` and the `/ws/voice` session loop).

Modelling conventions:
- byte strings are `List Nat` with entries below 256;
- timestamps are integers counting seconds (sub-second fractions of the
  Python `datetime` arithmetic are not modelled);
- external collaborators (the ElevenLabs synthesis call, Whisper
  transcription, pydub decoding, sentiment scoring) are parameters of
  the functions that invoke them, mirroring the spec's collaborator
  boundaries; everything else is translated from the source.
-/

/-- Byte strings (Python `bytes`): lists of naturals below 256. -/
abbrev Bytes := List Nat

/-! ## Circuit breaker (`app/utils/circuit_breaker.py`) -/

/-- The `CircuitState` enum of `circuit_breaker.py`. -/
inductive CircuitState where
  | CLOSED
  | OPEN
  | HALF_OPEN
deriving DecidableEq, Repr

/-- State and configuration of a `CircuitBreaker` instance: the fields set
in `CircuitBreaker.__init__` (the logging-only `name` is dropped). -/
structure CircuitBreaker where
  failure_threshold : Nat
  timeout_duration : Nat
  success_threshold : Nat
  failure_count : Nat
  success_count : Nat
  last_failure_time : Option Int
  state : CircuitState
deriving DecidableEq, Repr

/-- `CircuitBreaker.__init__`: counters at zero, no recorded failure,
state CLOSED. -/
def mkCircuitBreaker (failure_threshold timeout_duration success_threshold : Nat) :
    CircuitBreaker :=
  { failure_threshold := failure_threshold
    timeout_duration := timeout_duration
    success_threshold := success_threshold
    failure_count := 0
    success_count := 0
    last_failure_time := none
    state := CircuitState.CLOSED }

namespace CircuitBreaker

/-- `CircuitBreaker._on_success`. -/
def on_success (cb : CircuitBreaker) : CircuitBreaker :=
  match cb.state with
  | CircuitState.HALF_OPEN =>
    let sc := cb.success_count + 1
    if sc ≥ cb.success_threshold then
      { cb with state := CircuitState.CLOSED, failure_count := 0, success_count := 0 }
    else
      { cb with success_count := sc }
  | CircuitState.CLOSED => { cb with failure_count := 0 }
  | CircuitState.OPEN => cb

/-- `CircuitBreaker._on_failure` at clock time `now`: the failure counter
and `last_failure_time` are updated first, then the state transition is
decided from the pre-call state. -/
def on_failure (cb : CircuitBreaker) (now : Int) : CircuitBreaker :=
  let cb1 := { cb with
    failure_count := cb.failure_count + 1
    last_failure_time := some now }
  match cb.state with
  | CircuitState.HALF_OPEN =>
    { cb1 with state := CircuitState.OPEN, success_count := 0 }
  | CircuitState.CLOSED =>
    if cb1.failure_count ≥ cb.failure_threshold then
      { cb1 with state := CircuitState.OPEN }
    else
      cb1
  | CircuitState.OPEN => cb1

/-- `CircuitBreaker._should_attempt_reset` at clock time `now`. -/
def should_attempt_reset (cb : CircuitBreaker) (now : Int) : Bool :=
  match cb.last_failure_time with
  | none => true
  | some t => decide (now - t ≥ (cb.timeout_duration : Int))

/-- Outcome of the wrapped asynchronous operation, were it to be awaited:
it either produces bytes or raises. -/
inductive OpSpec where
  | succeeds (b : Bytes)
  | fails
deriving DecidableEq, Repr

/-- Result of `CircuitBreaker.call` as seen by the caller: the
`CircuitBreakerOpenException` rejection, a returned value, or the
wrapped operation's own exception re-raised. -/
inductive CallResult where
  | rejected
  | returned (b : Bytes)
  | raised
deriving DecidableEq, Repr

/-- The admission phase at the top of `CircuitBreaker.call`: an OPEN
breaker either transitions to HALF_OPEN (resetting `success_count`) or
rejects the call (`none`); any other state admits unchanged. -/
def admitOp (cb : CircuitBreaker) (now : Int) : Option CircuitBreaker :=
  match cb.state with
  | CircuitState.OPEN =>
    if cb.should_attempt_reset now then
      some { cb with state := CircuitState.HALF_OPEN, success_count := 0 }
    else
      none
  | _ => some cb

/-- `CircuitBreaker.call` at clock time `now`, wrapping an operation with
behavior `op`. Returns the caller-visible result, the breaker afterward,
and whether the wrapped operation was actually awaited. -/
def call (cb : CircuitBreaker) (now : Int) (op : OpSpec) :
    CallResult × CircuitBreaker × Bool :=
  match cb.admitOp now with
  | none => (CallResult.rejected, cb, false)
  | some cb1 =>
    match op with
    | OpSpec.succeeds b => (CallResult.returned b, cb1.on_success, true)
    | OpSpec.fails => (CallResult.raised, cb1.on_failure now, true)

/-- `CircuitBreaker.reset` (manual reset). -/
def reset (cb : CircuitBreaker) : CircuitBreaker :=
  { cb with
    state := CircuitState.CLOSED
    failure_count := 0
    success_count := 0
    last_failure_time := none }

end CircuitBreaker

/-- An externally triggered event on a breaker: a `call` whose wrapped
operation behaves as `op` (this includes rejected calls while OPEN), or a
manual `reset`. -/
inductive CBEvent where
  | callEv (now : Int) (op : CircuitBreaker.OpSpec)
  | resetEv
deriving DecidableEq, Repr

/-- Apply one event to a breaker, keeping the resulting breaker state. -/
def applyEvent (cb : CircuitBreaker) : CBEvent → CircuitBreaker
  | CBEvent.callEv now op => (cb.call now op).2.1
  | CBEvent.resetEv => cb.reset

/-- Run a sequence of events from a given breaker state. -/
def runEvents (cb : CircuitBreaker) (evs : List CBEvent) : CircuitBreaker :=
  evs.foldl applyEvent cb

/-! ## SHA-256 (the `hashlib.sha256` used by `CacheService._generate_key`) -/

namespace SHA256

/-- Truncation to a 32-bit word. -/
def w32 (n : Nat) : Nat := n % 4294967296

/-- 32-bit modular addition. -/
def add32 (a b : Nat) : Nat := (a + b) % 4294967296

/-- Right rotation of a 32-bit word by `n` bits. -/
def rotr32 (n x : Nat) : Nat := w32 ((x >>> n) ||| (x <<< (32 - n)))

/-- FIPS 180-4 `Sigma0`. -/
def bsig0 (x : Nat) : Nat := (rotr32 2 x) ^^^ (rotr32 13 x) ^^^ (rotr32 22 x)

/-- FIPS 180-4 `Sigma1`. -/
def bsig1 (x : Nat) : Nat := (rotr32 6 x) ^^^ (rotr32 11 x) ^^^ (rotr32 25 x)

/-- FIPS 180-4 `sigma0`. -/
def ssig0 (x : Nat) : Nat := (rotr32 7 x) ^^^ (rotr32 18 x) ^^^ (x >>> 3)

/-- FIPS 180-4 `sigma1`. -/
def ssig1 (x : Nat) : Nat := (rotr32 17 x) ^^^ (rotr32 19 x) ^^^ (x >>> 10)

/-- The `Ch` function (not-x is xor with the 32-bit all-ones word). -/
def chF (x y z : Nat) : Nat := (x &&& y) ^^^ ((x ^^^ 4294967295) &&& z)

/-- The `Maj` function. -/
def majF (x y z : Nat) : Nat := (x &&& y) ^^^ (x &&& z) ^^^ (y &&& z)

/-- The 64 SHA-256 round constants (FIPS 180-4, written in decimal). -/
def Kconst : List Nat :=
  [1116352408, 1899447441, 3049323471, 3921009573, 961987163,
   1508970993, 2453635748, 2870763221, 3624381080, 310598401,
   607225278, 1426881987, 1925078388, 2162078206, 2614888103,
   3248222580, 3835390401, 4022224774, 264347078, 604807628,
   770255983, 1249150122, 1555081692, 1996064986, 2554220882,
   2821834349, 2952996808, 3210313671, 3336571891, 3584528711,
   113926993, 338241895, 666307205, 773529912, 1294757372,
   1396182291, 1695183700, 1986661051, 2177026350, 2456956037,
   2730485921, 2820302411, 3259730800, 3345764771, 3516065817,
   3600352804, 4094571909, 275423344, 430227734, 506948616,
   659060556, 883997877, 958139571, 1322822218, 1537002063,
   1747873779, 1955562222, 2024104815, 2227730452, 2361852424,
   2428436474, 2756734187, 3204031479, 3329325298]

/-- The initial SHA-256 hash state (FIPS 180-4, written in decimal). -/
def initH : List Nat :=
  [1779033703, 3144134277, 1013904242, 2773480762,
   1359893119, 2600822924, 528734635, 1541459225]

/-- Big-endian encoding of `n` into `k` bytes. -/
def natToBytesBE (k n : Nat) : List Nat :=
  (List.range k).map (fun i => (n >>> (8 * (k - 1 - i))) % 256)

/-- SHA-256 padding: a 0x80 byte, zeros to 56 mod 64, then the bit length
as an 8-byte big-endian integer. -/
def padMessage (msg : List Nat) : List Nat :=
  let padZeros := (55 + 64 - (msg.length % 64)) % 64
  msg ++ [0x80] ++ List.replicate padZeros 0 ++ natToBytesBE 8 (8 * msg.length)

/-- Split a padded message into its 64-byte blocks. -/
def blocks (padded : List Nat) : List (List Nat) :=
  (List.range (padded.length / 64)).map (fun i => (padded.drop (64 * i)).take 64)

/-- First 16 message-schedule words of a block (big-endian). -/
def wordsOfBlock (blk : List Nat) : List Nat :=
  (List.range 16).map (fun i =>
    (blk.getD (4 * i) 0) * 16777216 + (blk.getD (4 * i + 1) 0) * 65536 +
    (blk.getD (4 * i + 2) 0) * 256 + blk.getD (4 * i + 3) 0)

/-- Word `i` of a message schedule. -/
def wAt (w : List Nat) (i : Nat) : Nat := w.getD i 0

/-- Extend 16 schedule words to the full 64. -/
def schedule (blockWords : List Nat) : List Nat :=
  (List.range 48).foldl (fun w t =>
    w ++ [add32 (add32 (ssig1 (wAt w (t + 14))) (wAt w (t + 9)))
            (add32 (ssig0 (wAt w (t + 1))) (wAt w t))]) blockWords

/-- One compression round on the eight working words. -/
def round1 (st : List Nat) (kt wt : Nat) : List Nat :=
  match st with
  | [a, b, c, d, e, f, g, h] =>
    let t1 := add32 h (add32 (bsig1 e) (add32 (chF e f g) (add32 kt wt)))
    let t2 := add32 (bsig0 a) (majF a b c)
    [add32 t1 t2, a, b, c, add32 d t1, e, f, g]
  | other => other

/-- Compress one 64-byte block into the running hash state. -/
def compressBlock (h : List Nat) (blk : List Nat) : List Nat :=
  let w := schedule (wordsOfBlock blk)
  let st := (Kconst.zip w).foldl (fun s p => round1 s p.1 p.2) h
  List.zipWith add32 h st

/-- SHA-256 digest (32 bytes) of a byte string. Checked against the FIPS
test vectors for the empty, one-block and two-block messages. -/
def sha256 (msg : List Nat) : List Nat :=
  let finalH := (blocks (padMessage msg)).foldl compressBlock initH
  (finalH.map (natToBytesBE 4)).flatten

/-- Lowercase hexadecimal digit. -/
def hexChar (n : Nat) : Char :=
  if n < 10 then Char.ofNat (48 + n) else Char.ofNat (87 + n)

/-- Lowercase hex string of a byte string, as `bytes.hex()` /
`hashlib`'s `hexdigest` produce. -/
def bytesToHex (bs : List Nat) : String :=
  String.mk ((bs.map (fun b => [hexChar (b / 16), hexChar (b % 16)])).flatten)

end SHA256

/-! ## Text normalization and cache keys
(`CacheService._generate_key` in `app/services/cache_service.py`) -/

/-- UTF-8 encoding of one character (`str.encode("utf-8")`, per char). -/
def utf8EncodeChar (c : Char) : List Nat :=
  let n := c.toNat
  if n < 128 then [n]
  else if n < 2048 then [192 + n / 64, 128 + n % 64]
  else if n < 65536 then [224 + n / 4096, 128 + (n / 64) % 64, 128 + n % 64]
  else [240 + n / 262144, 128 + (n / 4096) % 64, 128 + (n / 64) % 64, 128 + n % 64]

/-- UTF-8 encoding of a string. -/
def utf8Bytes (s : String) : List Nat := (s.data.map utf8EncodeChar).flatten

/-- One character of Python `str.lower()`, modelled on the ASCII range
(the cache-key texts of interest); non-ASCII-uppercase characters are
left unchanged. -/
def pyCharLower (c : Char) : Char :=
  if 65 ≤ c.toNat ∧ c.toNat ≤ 90 then Char.ofNat (c.toNat + 32) else c

/-- Whitespace as stripped by Python `str.strip()`, modelled on the ASCII
whitespace characters (space, tab, newline, carriage return, vertical
tab, form feed). -/
def isPySpace (c : Char) : Bool :=
  c.toNat = 32 || c.toNat = 9 || c.toNat = 10 ||
  c.toNat = 13 || c.toNat = 11 || c.toNat = 12

/-- Drop leading whitespace (`str.lstrip()`). -/
def lstripChars (l : List Char) : List Char := l.dropWhile isPySpace

/-- Drop trailing whitespace (`str.rstrip()`). -/
def rstripChars (l : List Char) : List Char :=
  (l.reverse.dropWhile isPySpace).reverse

/-- Drop leading and trailing whitespace (`str.strip()`). -/
def stripChars (l : List Char) : List Char := rstripChars (lstripChars l)

/-- `str.lower()` on a whole string. -/
def pyLower (s : String) : String := String.mk (s.data.map pyCharLower)

/-- `str.strip()` on a whole string. -/
def pyStrip (s : String) : String := String.mk (stripChars s.data)

/-- The normalization step of `CacheService._generate_key`:
`text.lower().strip()`. -/
def normalizeText (text : String) : String := pyStrip (pyLower text)

/-- `CacheService._generate_key`: the cache key for a text. -/
def generate_key (text : String) : String :=
  "tts:audio:" ++ SHA256.bytesToHex (SHA256.sha256 (utf8Bytes (normalizeText text)))

/-! ## Dedup cache (`app/services/cache_service.py`)

The backing Redis store is modelled as an association list from keys to
byte strings. TTL expiry needs a store-side clock and is outside the
model: all statements about `get` after `set` are statements about the
pre-expiry window. A Redis command that raises `RedisError` is modelled
by the `storeFails` flag of the operation. -/

/-- Contents of the backing store: key to bytes. -/
abbrev RedisStore := List (String × Bytes)

/-- Redis `GET key`. -/
def storeLookup (store : RedisStore) (k : String) : Option Bytes :=
  (store.find? (fun p => p.1 == k)).map Prod.snd

/-- Redis `SETEX key ttl value` (the stored value; expiry not modelled). -/
def storeInsert (store : RedisStore) (k : String) (v : Bytes) : RedisStore :=
  (k, v) :: store.filter (fun p => !(p.1 == k))

/-- State of a `CacheService` instance: whether `redis_client` is
initialized, the store contents, and the hit/miss counters. -/
structure CacheService where
  connected : Bool
  store : RedisStore
  hits : Nat
  misses : Nat
deriving DecidableEq, Repr

namespace CacheService

/-- `CacheService.get`. A `RedisError` from the store (`storeFails`)
is caught and yields `none` with counters untouched; an uninitialized
client likewise. A present but empty value is falsy in Python
(`if data:`), so it is counted and returned as a miss. -/
def get (cs : CacheService) (text : String) (storeFails : Bool) :
    Option Bytes × CacheService :=
  if cs.connected = false then (none, cs)
  else if storeFails then (none, cs)
  else
    match storeLookup cs.store (generate_key text) with
    | some data =>
      if data.isEmpty then (none, { cs with misses := cs.misses + 1 })
      else (some data, { cs with hits := cs.hits + 1 })
    | none => (none, { cs with misses := cs.misses + 1 })

/-- `CacheService.set`. Returns whether the store succeeded; a
`RedisError` (`storeFails`) or uninitialized client yields `false`
without raising. The `ttl` argument only picks the expiry
(`ttl or settings.REDIS_CACHE_TTL`), which the store model ignores. -/
def set (cs : CacheService) (text : String) (audio_data : Bytes)
    (_ttl : Option Nat) (storeFails : Bool) : Bool × CacheService :=
  if cs.connected = false then (false, cs)
  else if storeFails then (false, cs)
  else (true, { cs with store := storeInsert cs.store (generate_key text) audio_data })

end CacheService

/-! ## TTS service retry (`app/services/tts_service.py`)

`TTSService.text_to_speech` is wrapped by tenacity with
`stop_after_attempt(MAX_RETRIES)`, `reraise=True`, and
`retry_if_exception_type((WebSocketException, ConnectionError,
TimeoutError))`. The underlying network interaction is a collaborator;
each attempt either returns bytes, raises a retriable (transient)
exception, or raises a non-retriable one. -/

/-- Behavior of one synthesis attempt. -/
inductive Attempt where
  | ok (b : Bytes)
  | transient
  | fatal
deriving DecidableEq, Repr

/-- The tenacity retry loop around one `text_to_speech` call: up to
`budget` attempts, retrying only transient failures, re-raising
(`none`) once the budget is exhausted or on a non-retriable failure. -/
def tenacityRun (budget : Nat) (attempts : List Attempt) : Option Bytes :=
  match budget, attempts with
  | 0, _ => none
  | _, [] => none
  | _ + 1, Attempt.ok b :: _ => some b
  | _ + 1, Attempt.fatal :: _ => none
  | b + 1, Attempt.transient :: rest => if b = 0 then none else tenacityRun b rest

/-- View the aggregated outcome of a synthesis call as the wrapped
operation the breaker awaits. -/
def opOfOutcome : Option Bytes → CircuitBreaker.OpSpec
  | some b => CircuitBreaker.OpSpec.succeeds b
  | none => CircuitBreaker.OpSpec.fails

/-- The top-level dispatch of a synthesis call:
`tts_circuit_breaker.call(tts_service.text_to_speech(text))` — the
breaker wraps the whole retried call and observes one aggregated
outcome. -/
def dispatchTTS (cb : CircuitBreaker) (now : Int) (attempts : List Attempt)
    (maxRetries : Nat) : CircuitBreaker.CallResult × CircuitBreaker × Bool :=
  cb.call now (opOfOutcome (tenacityRun maxRetries attempts))

/-! ## Audio normalization (`app/services/audio_processor.py`)

`AudioProcessor.normalize` runs a pydub pipeline (decode, measure dBFS,
apply gain, re-export) inside one `try`, and any exception makes it
return the original input bytes. The pydub segment type and its
floating-point dBFS arithmetic are collaborators (spec §1); decoding and
export are the two fallible stages, and an exception raised anywhere in
the gain/export stage is modelled by the export's error outcome. -/

/-- The pydub collaborator operations used by `AudioProcessor.normalize`,
over an abstract segment type. dBFS values and gains are modelled as
integers. -/
structure AudioOps (Seg : Type) where
  from_file : Bytes → String → Except Unit Seg
  dBFS : Seg → Int
  target_dbfs : Int
  apply_gain : Seg → Int → Seg
  export_bytes : Seg → String → Except Unit Bytes

/-- `AudioProcessor.normalize`: a total function — every failure path
returns the original `audio_data` instead of propagating. -/
def audioNormalize {Seg : Type} (ops : AudioOps Seg) (audio_data : Bytes)
    (format : String) : Bytes :=
  match ops.from_file audio_data format with
  | Except.error _ => audio_data
  | Except.ok seg =>
    let gain := ops.target_dbfs - ops.dBFS seg
    match ops.export_bytes (ops.apply_gain seg gain) format with
    | Except.error _ => audio_data
    | Except.ok out => out

/-! ## Session loop and REST dispatch (`app/main.py`)

The WebSocket session loop (`websocket_endpoint`) and the REST TTS
endpoint (`text_to_speech_endpoint`) are modelled one inbound message /
request at a time over the shared pipeline state (the cache service and
the TTS circuit breaker). Collaborator parameters: `normalize` is the
audio normalization applied to response audio; `synthAttempts` gives the
per-attempt behavior of the synthesis collaborator for a given text;
transcription and sentiment are abstracted (their outputs do not feed
back into the modelled state). Store operations in these flows are taken
to succeed; `CacheService`-level failure behavior is settled separately.
Timing metrics (`latency_ms`) are real-time measurements and are not
modelled. -/

/-- An inbound WebSocket message after `json.loads`: `message.get("type")`
and the payload fields with their `""` defaults. -/
structure WsMessage where
  msg_type : Option String
  text_field : String
  audio_field : String
deriving DecidableEq, Repr

/-- Python `f"{v}"` on the value of `message.get("type")` as modelled
here: `None` prints as `"None"`, a string prints verbatim. -/
def typeRepr : Option String → String
  | none => "None"
  | some s => s

/-- Outbound WebSocket messages relevant to the modelled claims. The
service-failure responses (`TTS service error: ...`,
`STT service error: ...`) embed `str(e)` of the caught exception, which
is not modelled, so they are distinguished constructors without the
message text; `audioMsg` carries the audio bytes and cached flag of the
`"type": "audio"` response (duration, latency and sentiment fields are
not modelled). -/
inductive WsOut where
  | errorMsg (message : String)
  | ttsErrorMsg
  | sttErrorMsg
  | audioMsg (audioBytes : Bytes) (cached : Bool)
  | transcriptMsg
deriving DecidableEq, Repr

/-- The process-wide mutable state the modelled flows touch: the cache
service singleton and the TTS circuit breaker. -/
structure PipelineState where
  cache : CacheService
  breaker : CircuitBreaker
deriving DecidableEq, Repr

/-- Result of handling one inbound WebSocket message: the pipeline state
afterward, the responses sent, and whether the synthesis collaborator
was invoked. The session loop continues to the next message in every
one of these cases (only transport-level failures, outside this model,
end the loop). -/
structure WsStepResult where
  state : PipelineState
  out : List WsOut
  ttsInvoked : Bool
deriving DecidableEq, Repr

/-- The `message_type == "text"` branch of `websocket_endpoint`. -/
def handleTextMsg (normalize : Bytes → Bytes) (synthAttempts : String → List Attempt)
    (maxRetries : Nat) (st : PipelineState) (now : Int) (rawText : String) :
    WsStepResult :=
  let text := pyStrip rawText
  if text = "" then
    { state := st, out := [WsOut.errorMsg "Empty text"], ttsInvoked := false }
  else
    let g := st.cache.get text false
    match g.1 with
    | some cached =>
      { state := { st with cache := g.2 }
        out := [WsOut.audioMsg (normalize cached) true]
        ttsInvoked := false }
    | none =>
      let c := dispatchTTS st.breaker now (synthAttempts text) maxRetries
      match c.1 with
      | CircuitBreaker.CallResult.returned b =>
        let s := CacheService.set g.2 text b none false
        { state := { cache := s.2, breaker := c.2.1 }
          out := [WsOut.audioMsg (normalize b) false]
          ttsInvoked := c.2.2 }
      | _ =>
        { state := { cache := g.2, breaker := c.2.1 }
          out := [WsOut.ttsErrorMsg]
          ttsInvoked := c.2.2 }

/-- The `message_type == "audio"` branch of `websocket_endpoint`:
transcription and sentiment are collaborators whose outputs do not
touch the modelled state; `sttFails` says whether the decode/transcribe
block raises. -/
def handleAudioMsg (sttFails : Bool) (st : PipelineState) (b64 : String) :
    WsStepResult :=
  if b64 = "" then
    { state := st, out := [WsOut.errorMsg "Empty audio data"], ttsInvoked := false }
  else if sttFails then
    { state := st, out := [WsOut.sttErrorMsg], ttsInvoked := false }
  else
    { state := st, out := [WsOut.transcriptMsg], ttsInvoked := false }

/-- One iteration of the `websocket_endpoint` receive loop on an inbound
message. -/
def wsHandleMessage (normalize : Bytes → Bytes) (synthAttempts : String → List Attempt)
    (maxRetries : Nat) (sttFails : Bool) (st : PipelineState) (now : Int)
    (msg : WsMessage) : WsStepResult :=
  if msg.msg_type = some "text" then
    handleTextMsg normalize synthAttempts maxRetries st now msg.text_field
  else if msg.msg_type = some "audio" then
    handleAudioMsg sttFails st msg.audio_field
  else
    { state := st
      out := [WsOut.errorMsg ("Invalid message type: " ++ typeRepr msg.msg_type ++
        ". Expected \x27text\x27 or \x27audio\x27")]
      ttsInvoked := false }

/-- Response of the REST `/api/tts` endpoint. -/
inductive RestResult where
  | badRequest
  | okResp (audioBytes : Bytes) (cached : Bool)
  | serverError
deriving DecidableEq, Repr

/-- Result of one REST `/api/tts` request. -/
structure RestStepResult where
  state : PipelineState
  result : RestResult
  ttsInvoked : Bool
deriving DecidableEq, Repr

/-- The generation path of `text_to_speech_endpoint` (after a cache miss
or with caching disabled): synthesis through the breaker, cache store,
then normalization of the response. -/
def restGenerate (normalize : Bytes → Bytes) (synthAttempts : String → List Attempt)
    (maxRetries : Nat) (cache1 : CacheService) (breaker : CircuitBreaker)
    (now : Int) (text : String) (use_cache : Bool) : RestStepResult :=
  let c := dispatchTTS breaker now (synthAttempts text) maxRetries
  match c.1 with
  | CircuitBreaker.CallResult.returned b =>
    let cache2 := if use_cache then (CacheService.set cache1 text b none false).2 else cache1
    { state := { cache := cache2, breaker := c.2.1 }
      result := RestResult.okResp (normalize b) false
      ttsInvoked := c.2.2 }
  | _ =>
    { state := { cache := cache1, breaker := c.2.1 }
      result := RestResult.serverError
      ttsInvoked := c.2.2 }

/-- `text_to_speech_endpoint` (`POST /api/tts`). Note the asymmetry of
the source: on a cache hit the cached bytes are returned as-is, while
the miss path normalizes the freshly synthesized audio before
returning it. -/
def text_to_speech_endpoint (normalize : Bytes → Bytes)
    (synthAttempts : String → List Attempt) (maxRetries : Nat)
    (st : PipelineState) (now : Int) (rawText : String) (use_cache : Bool) :
    RestStepResult :=
  let text := pyStrip rawText
  if text = "" then
    { state := st, result := RestResult.badRequest, ttsInvoked := false }
  else if use_cache then
    let g := st.cache.get text false
    match g.1 with
    | some cached =>
      { state := { st with cache := g.2 }
        result := RestResult.okResp cached true
        ttsInvoked := false }
    | none => restGenerate normalize synthAttempts maxRetries g.2 st.breaker now text use_cache
  else
    restGenerate normalize synthAttempts maxRetries st.cache st.breaker now text use_cache

/-! ## Helper lemmas -/

/-- Every recorded failure stamps `last_failure_time` with the current
clock, in every state. -/
theorem on_failure_last (cb : CircuitBreaker) (now : Int) :
    (cb.on_failure now).last_failure_time = some now := by
  cases hs : cb.state <;> simp [CircuitBreaker.on_failure, hs]
  split <;> rfl

/-- Every recorded failure increments `failure_count` by one, in every
state. -/
theorem on_failure_count (cb : CircuitBreaker) (now : Int) :
    (cb.on_failure now).failure_count = cb.failure_count + 1 := by
  cases hs : cb.state <;> simp [CircuitBreaker.on_failure, hs]
  split <;> rfl

/-- A recorded success never moves a non-OPEN breaker to OPEN. -/
theorem on_success_not_open (cb : CircuitBreaker)
    (h : cb.state ≠ CircuitState.OPEN) : cb.on_success.state ≠ CircuitState.OPEN := by
  cases hs : cb.state
  · simp [CircuitBreaker.on_success, hs]
  · exact absurd hs h
  · simp only [CircuitBreaker.on_success, hs]
    split <;> simp

/-- The admission phase never hands the wrapped operation an OPEN
breaker, and it touches neither `failure_count` nor
`last_failure_time`. -/
theorem admitOp_spec (cb : CircuitBreaker) (now : Int) (cb1 : CircuitBreaker)
    (h : cb.admitOp now = some cb1) :
    cb1.state ≠ CircuitState.OPEN ∧ cb1.failure_count = cb.failure_count ∧
      cb1.last_failure_time = cb.last_failure_time := by
  unfold CircuitBreaker.admitOp at h
  cases hs : cb.state <;> rw [hs] at h <;> simp at h
  · exact h ▸ ⟨by simp [hs], rfl, rfl⟩
  · obtain ⟨-, h⟩ := h
    exact h ▸ ⟨by simp, rfl, rfl⟩
  · exact h ▸ ⟨by simp [hs], rfl, rfl⟩

/-! ## C1 — circuit breaker bookkeeping after each outcome -/

/-- C1: after each wrapped-call outcome the bookkeeping matches the
specified transition table. While CLOSED, a failure increments
`failure_count`, stamps `last_failure_time = now`, and moves to OPEN
exactly when the new count reaches `failure_threshold`; a success while
CLOSED resets `failure_count` to 0. While HALF_OPEN, a success
increments `success_count` and, once it reaches `success_threshold`,
closes the breaker with both counters zeroed; a single failure while
HALF_OPEN reopens the breaker with `success_count = 0` and
`last_failure_time = now`, regardless of prior successes. -/
theorem circuitBreaker_transition_table (cb : CircuitBreaker) (now : Int) :
    (cb.state = CircuitState.CLOSED →
      (cb.on_failure now).failure_count = cb.failure_count + 1 ∧
      (cb.on_failure now).last_failure_time = some now ∧
      (cb.failure_count + 1 ≥ cb.failure_threshold →
        (cb.on_failure now).state = CircuitState.OPEN) ∧
      (cb.failure_count + 1 < cb.failure_threshold →
        (cb.on_failure now).state = CircuitState.CLOSED)) ∧
    (cb.state = CircuitState.CLOSED →
      cb.on_success.failure_count = 0 ∧ cb.on_success.state = CircuitState.CLOSED) ∧
    (cb.state = CircuitState.HALF_OPEN →
      (cb.success_count + 1 ≥ cb.success_threshold →
        cb.on_success.state = CircuitState.CLOSED ∧
        cb.on_success.failure_count = 0 ∧ cb.on_success.success_count = 0) ∧
      (cb.success_count + 1 < cb.success_threshold →
        cb.on_success.state = CircuitState.HALF_OPEN ∧
        cb.on_success.success_count = cb.success_count + 1)) ∧
    (cb.state = CircuitState.HALF_OPEN →
      (cb.on_failure now).state = CircuitState.OPEN ∧
      (cb.on_failure now).success_count = 0 ∧
      (cb.on_failure now).last_failure_time = some now) := by
  refine ⟨fun h => ?_, fun h => ?_, fun h => ?_, fun h => ?_⟩
  · by_cases hth : cb.failure_count + 1 ≥ cb.failure_threshold <;>
      simp [CircuitBreaker.on_failure, h, hth]
  · simp [CircuitBreaker.on_success, h]
  · by_cases hth : cb.success_count + 1 ≥ cb.success_threshold <;>
      simp [CircuitBreaker.on_success, h, hth]
  · simp [CircuitBreaker.on_failure, h]

/-- A concrete HALF_OPEN breaker one success short of its success
threshold. -/
def cbHalfEx : CircuitBreaker :=
  { failure_threshold := 5, timeout_duration := 60, success_threshold := 2,
    failure_count := 5, success_count := 1, last_failure_time := some 0,
    state := CircuitState.HALF_OPEN }

/-- A concrete OPEN breaker with its last failure recorded at time 0. -/
def cbOpenEx : CircuitBreaker :=
  { failure_threshold := 5, timeout_duration := 60, success_threshold := 2,
    failure_count := 5, success_count := 0, last_failure_time := some 0,
    state := CircuitState.OPEN }

/-- Witness for C1 at concrete breakers: a fresh breaker
(threshold 5) failing once stays CLOSED with count 1 and a stamped
failure time; a HALF_OPEN breaker one success short of its threshold
closes with zeroed counters on success, and reopens on failure. -/
theorem circuitBreaker_transition_table_witness :
    (((mkCircuitBreaker 5 60 2).on_failure 3).failure_count = 0 + 1 ∧
     ((mkCircuitBreaker 5 60 2).on_failure 3).last_failure_time = some 3 ∧
     ((mkCircuitBreaker 5 60 2).on_failure 3).state = CircuitState.CLOSED) ∧
    (cbHalfEx.on_success.state = CircuitState.CLOSED ∧
     cbHalfEx.on_success.success_count = 0) ∧
    (cbHalfEx.on_failure 9).state = CircuitState.OPEN := by
  have h1 := circuitBreaker_transition_table (mkCircuitBreaker 5 60 2) 3
  have h2 := circuitBreaker_transition_table cbHalfEx 9
  refine ⟨⟨(h1.1 rfl).1, (h1.1 rfl).2.1, (h1.1 rfl).2.2.2 (by decide)⟩,
    ⟨((h2.2.2.1 rfl).1 (by decide)).1, ((h2.2.2.1 rfl).1 (by decide)).2.2⟩,
    (h2.2.2.2 rfl).1⟩

/-! ## C2 — OPEN rejection and timed HALF_OPEN admission -/

/-- C2: an OPEN breaker whose recorded failure is younger than
`timeout_duration` rejects the call with the distinguished circuit-open
error, never awaits the wrapped operation, and is returned unchanged;
once at least `timeout_duration` has elapsed, the admission phase
yields the HALF_OPEN breaker with `success_count = 0` before that one
call is let through. -/
theorem circuitBreaker_open_gate (cb : CircuitBreaker) (now t : Int)
    (op : CircuitBreaker.OpSpec) (hopen : cb.state = CircuitState.OPEN)
    (hlast : cb.last_failure_time = some t) :
    (now - t < (cb.timeout_duration : Int) →
      cb.call now op = (CircuitBreaker.CallResult.rejected, cb, false)) ∧
    ((cb.timeout_duration : Int) ≤ now - t →
      cb.admitOp now =
        some { cb with state := CircuitState.HALF_OPEN, success_count := 0 } ∧
      (cb.call now op).2.2 = true) := by
  constructor
  · intro h
    unfold CircuitBreaker.call CircuitBreaker.admitOp CircuitBreaker.should_attempt_reset
    rw [hopen, hlast]
    simp [not_le.mpr h]
  · intro h
    have hadm : cb.admitOp now =
        some { cb with state := CircuitState.HALF_OPEN, success_count := 0 } := by
      unfold CircuitBreaker.admitOp CircuitBreaker.should_attempt_reset
      rw [hopen, hlast]
      simp [h]
    refine ⟨hadm, ?_⟩
    unfold CircuitBreaker.call
    rw [hadm]
    cases op <;> rfl

/-- Witness for C2 at a concrete OPEN breaker (failure at time 0,
timeout 60): at time 59 the call is rejected untouched; at time 60 the
admission yields HALF_OPEN with `success_count = 0` and the wrapped
operation runs. -/
theorem circuitBreaker_open_gate_witness :
    (cbOpenEx.call 59 (CircuitBreaker.OpSpec.succeeds [1]) =
      (CircuitBreaker.CallResult.rejected, cbOpenEx, false)) ∧
    (cbOpenEx.admitOp 60 =
      some { cbOpenEx with state := CircuitState.HALF_OPEN, success_count := 0 }) ∧
    (cbOpenEx.call 60 (CircuitBreaker.OpSpec.succeeds [1])).2.2 = true := by
  have h1 := circuitBreaker_open_gate cbOpenEx 59 0
    (CircuitBreaker.OpSpec.succeeds [1]) rfl rfl
  have h2 := circuitBreaker_open_gate cbOpenEx 60 0
    (CircuitBreaker.OpSpec.succeeds [1]) rfl rfl
  exact ⟨h1.1 (by decide), (h2.2 (by decide)).1, (h2.2 (by decide)).2⟩

/-! ## C10 — an OPEN breaker always has a recorded failure time -/

/-- One event preserves the invariant that an OPEN breaker has a
recorded `last_failure_time`. -/
theorem applyEvent_open_inv (cb : CircuitBreaker) (e : CBEvent)
    (h : cb.state = CircuitState.OPEN → cb.last_failure_time ≠ none) :
    (applyEvent cb e).state = CircuitState.OPEN →
      (applyEvent cb e).last_failure_time ≠ none := by
  cases e with
  | resetEv => simp [applyEvent, CircuitBreaker.reset]
  | callEv now op =>
    simp only [applyEvent, CircuitBreaker.call]
    cases hadm : cb.admitOp now with
    | none => exact h
    | some cb1 =>
      obtain ⟨hst, -, hlast⟩ := admitOp_spec cb now cb1 hadm
      cases op with
      | succeeds b =>
        intro hopen
        exact absurd hopen (on_success_not_open cb1 hst)
      | fails =>
        intro _
        rw [on_failure_last]
        simp

/-- C10: in every state reachable from a freshly constructed breaker by
any sequence of call outcomes (successes, failures, open rejections)
and manual resets, an OPEN state has a recorded `last_failure_time`, so
the open-timeout check always compares against an actual failure
time. -/
theorem circuitBreaker_open_has_failure_time (ft td sth : Nat) (evs : List CBEvent) :
    (runEvents (mkCircuitBreaker ft td sth) evs).state = CircuitState.OPEN →
      (runEvents (mkCircuitBreaker ft td sth) evs).last_failure_time ≠ none := by
  have inv : ∀ (l : List CBEvent) (cb : CircuitBreaker),
      (cb.state = CircuitState.OPEN → cb.last_failure_time ≠ none) →
      (runEvents cb l).state = CircuitState.OPEN →
        (runEvents cb l).last_failure_time ≠ none := by
    intro l
    induction l with
    | nil => exact fun cb h => h
    | cons e rest ih =>
      intro cb h
      exact ih (applyEvent cb e) (applyEvent_open_inv cb e h)
  exact inv evs (mkCircuitBreaker ft td sth) (by simp [mkCircuitBreaker])

/-- Witness for C10: a fresh breaker with failure threshold 1 driven to
OPEN by one failing call has a recorded failure time. -/
theorem circuitBreaker_open_has_failure_time_witness :
    (runEvents (mkCircuitBreaker 1 60 2)
      [CBEvent.callEv 7 CircuitBreaker.OpSpec.fails]).state = CircuitState.OPEN ∧
    (runEvents (mkCircuitBreaker 1 60 2)
      [CBEvent.callEv 7 CircuitBreaker.OpSpec.fails]).last_failure_time ≠ none :=
  ⟨by decide, circuitBreaker_open_has_failure_time 1 60 2
    [CBEvent.callEv 7 CircuitBreaker.OpSpec.fails] (by decide)⟩

/-! ## C6 — one breaker increment per failed dispatch, not per retry -/

/-- C6: a failed top-level dispatch (the breaker-wrapped, internally
retried synthesis call) increments the breaker's failure counter by
exactly one, whatever sequence of attempt outcomes the retry loop
consumed internally — two dispatches whose retries differ arbitrarily
leave identical counters. -/
theorem breaker_counts_dispatches_not_retries (cb cb1 : CircuitBreaker) (now : Int)
    (attempts attempts2 : List Attempt) (maxRetries : Nat)
    (hadm2 : cb.admitOp now = some cb1)
    (hfail : tenacityRun maxRetries attempts = none)
    (hfail2 : tenacityRun maxRetries attempts2 = none) :
    (dispatchTTS cb now attempts maxRetries).2.1.failure_count =
      cb.failure_count + 1 ∧
    (dispatchTTS cb now attempts maxRetries).2.1.failure_count =
      (dispatchTTS cb now attempts2 maxRetries).2.1.failure_count := by
  obtain ⟨-, hcount, -⟩ := admitOp_spec cb now cb1 hadm2
  have key : ∀ l : List Attempt, tenacityRun maxRetries l = none →
      (dispatchTTS cb now l maxRetries).2.1.failure_count = cb.failure_count + 1 := by
    intro l hl
    unfold dispatchTTS
    rw [hl]
    unfold CircuitBreaker.call
    rw [hadm2]
    simp only [opOfOutcome]
    rw [on_failure_count, hcount]
  exact ⟨key attempts hfail, by rw [key attempts hfail, key attempts2 hfail2]⟩

/-- Witness for C6: a CLOSED breaker dispatching a call whose three
internal attempts all fail transiently (retries exhausted) ends with
`failure_count` 1, the same as a dispatch with a single internal
failure. -/
theorem breaker_counts_dispatches_not_retries_witness :
    (mkCircuitBreaker 5 60 2).admitOp 0 = some (mkCircuitBreaker 5 60 2) ∧
    tenacityRun 3 [Attempt.transient, Attempt.transient, Attempt.transient] = none ∧
    (dispatchTTS (mkCircuitBreaker 5 60 2) 0
      [Attempt.transient, Attempt.transient, Attempt.transient] 3).2.1.failure_count =
      (mkCircuitBreaker 5 60 2).failure_count + 1 ∧
    (dispatchTTS (mkCircuitBreaker 5 60 2) 0
      [Attempt.transient, Attempt.transient, Attempt.transient] 3).2.1.failure_count =
      (dispatchTTS (mkCircuitBreaker 5 60 2) 0 [Attempt.fatal] 3).2.1.failure_count := by
  have h := breaker_counts_dispatches_not_retries (mkCircuitBreaker 5 60 2)
    (mkCircuitBreaker 5 60 2) 0
    [Attempt.transient, Attempt.transient, Attempt.transient] [Attempt.fatal] 3
    (by decide) (by decide) (by decide)
  exact ⟨by decide, by decide, h.1, h.2⟩

/-! ## Cache lemmas -/

/-- A freshly `setex`-ed key reads back its value. -/
theorem storeLookup_insert_self (store : RedisStore) (k : String) (v : Bytes) :
    storeLookup (storeInsert store k v) k = some v := by
  simp [storeLookup, storeInsert, List.find?_cons_of_pos]

/-- `CacheService.get` on a connected client whose store holds no value
under the text's key: a miss, counted once. -/
theorem cacheGet_miss (cs : CacheService) (text : String)
    (hconn : cs.connected = true)
    (hmiss : storeLookup cs.store (generate_key text) = none) :
    cs.get text false = (none, { cs with misses := cs.misses + 1 }) := by
  simp [CacheService.get, hconn, hmiss]

/-- `CacheService.get` on a connected client whose store holds a
nonempty value under the text's key: a hit, returning the stored
bytes. -/
theorem cacheGet_hit (cs : CacheService) (text : String) (d : Bytes)
    (hconn : cs.connected = true)
    (hhit : storeLookup cs.store (generate_key text) = some d) (hd : d ≠ []) :
    cs.get text false = (some d, { cs with hits := cs.hits + 1 }) := by
  have hde : d.isEmpty = false := by
    cases d with
    | nil => exact absurd rfl hd
    | cons a l => rfl
  simp [CacheService.get, hconn, hhit, hde]

/-- `CacheService.set` on a connected client with a working store
succeeds and writes under the text's key. -/
theorem cacheSet_ok (cs : CacheService) (text : String) (v : Bytes)
    (hconn : cs.connected = true) :
    cs.set text v none false =
      (true, { cs with store := storeInsert cs.store (generate_key text) v }) := by
  simp [CacheService.set, hconn]

/-! ## C5 — set/get round-trip and counted misses -/

/-- Counterexample to C5 as stated: the round-trip fails for the empty
byte string. On a connected, empty cache, `set(text, b"")` succeeds,
but the subsequent `get` hits Python's falsy check `if data:` on the
stored empty bytes and returns `None` (a counted miss) instead of the
stored value. -/
theorem cache_roundtrip_empty_counterexample :
    (CacheService.set ⟨true, [], 0, 0⟩ "x" [] none false).1 = true ∧
    (CacheService.get (CacheService.set ⟨true, [], 0, 0⟩ "x" [] none false).2
      "x" false).1 = none ∧
    (CacheService.get (CacheService.set ⟨true, [], 0, 0⟩ "x" [] none false).2
      "x" false).1 ≠ some [] ∧
    (CacheService.get (CacheService.set ⟨true, [], 0, 0⟩ "x" [] none false).2
      "x" false).2.misses = 1 := by
  refine ⟨rfl, ?_, ?_, ?_⟩ <;>
    rw [cacheSet_ok ⟨true, [], 0, 0⟩ "x" [] rfl] <;>
    simp [CacheService.get, storeLookup_insert_self]

/-- C5 (amended to nonempty values): after a successful `set(text, v)`
with `v` nonempty and the store available, `get(text)` returns exactly
the stored bytes; and `get` on a connected cache holding no entry for
the text returns `None` and increments `misses` by exactly one. -/
theorem cache_roundtrip_and_counted_miss (cs cs2 : CacheService)
    (text text2 : String) (v : Bytes)
    (hconn : cs.connected = true) (hv : v ≠ [])
    (hconn2 : cs2.connected = true)
    (hmiss : storeLookup cs2.store (generate_key text2) = none) :
    (cs.set text v none false).1 = true ∧
    ((cs.set text v none false).2.get text false).1 = some v ∧
    cs2.get text2 false = (none, { cs2 with misses := cs2.misses + 1 }) := by
  have hg := cacheGet_hit { cs with store := storeInsert cs.store (generate_key text) v }
    text v hconn (storeLookup_insert_self cs.store (generate_key text) v) hv
  refine ⟨?_, ?_, cacheGet_miss cs2 text2 hconn2 hmiss⟩
  · simp [cacheSet_ok cs text v hconn]
  · simp [cacheSet_ok cs text v hconn, hg]

/-- Witness for C5 (amended): on a connected, empty cache, storing
`[1, 2, 3]` under `"hello"` reads back exactly, and a `get` of an
absent text is a miss counted once. -/
theorem cache_roundtrip_and_counted_miss_witness :
    ((CacheService.set ⟨true, [], 0, 0⟩ "hello" [1, 2, 3] none false).1 = true ∧
     ((CacheService.set ⟨true, [], 0, 0⟩ "hello" [1, 2, 3] none
        false).2.get "hello" false).1 = some [1, 2, 3]) ∧
    CacheService.get ⟨true, [], 4, 7⟩ "absent" false =
      (none, ⟨true, [], 4, 8⟩) := by
  have h := cache_roundtrip_and_counted_miss ⟨true, [], 0, 0⟩ ⟨true, [], 4, 7⟩
    "hello" "absent" [1, 2, 3] rfl (by decide) rfl rfl
  exact ⟨⟨h.1, h.2.1⟩, h.2.2⟩

/-! ## C7 — cache operations are fail-soft -/

/-- C7: cache operations never propagate a store failure. A `RedisError`
from the store makes `get` return `None` and `set` return `false`, with
the service state untouched; an uninitialized client behaves the same.
(Both operations are total functions of the modelled state: there is no
error path to the caller at all.) -/
theorem cache_fail_soft (cs : CacheService) (text : String) (v : Bytes)
    (ttl : Option Nat) :
    cs.get text true = (none, cs) ∧
    cs.set text v ttl true = (false, cs) ∧
    (cs.connected = false → cs.get text false = (none, cs)) ∧
    (cs.connected = false → cs.set text v ttl false = (false, cs)) := by
  refine ⟨?_, ?_, fun h => ?_, fun h => ?_⟩
  · by_cases h : cs.connected = false <;> simp [CacheService.get, h]
  · by_cases h : cs.connected = false <;> simp [CacheService.set, h]
  · simp [CacheService.get, h]
  · simp [CacheService.set, h]

/-- Witness for C7 at a concrete disconnected cache and a concrete
connected cache with a failing store. -/
theorem cache_fail_soft_witness :
    CacheService.get ⟨false, [], 0, 0⟩ "x" false = (none, ⟨false, [], 0, 0⟩) ∧
    CacheService.set ⟨false, [], 0, 0⟩ "x" [1] none false =
      (false, ⟨false, [], 0, 0⟩) ∧
    CacheService.get ⟨true, [], 0, 0⟩ "x" true = (none, ⟨true, [], 0, 0⟩) ∧
    CacheService.set ⟨true, [], 0, 0⟩ "x" [1] none true =
      (false, ⟨true, [], 0, 0⟩) := by
  have h1 := cache_fail_soft ⟨false, [], 0, 0⟩ "x" [1] none
  have h2 := cache_fail_soft ⟨true, [], 0, 0⟩ "x" [1] none
  exact ⟨h1.2.2.1 rfl, h1.2.2.2 rfl, h2.1, h2.2.1⟩

/-! ## C9 — audio normalization degrades to pass-through -/

/-- C9: `AudioProcessor.normalize` is a total function of its input and
the collaborator outcomes (no exception escapes: the whole pydub
pipeline runs inside one `try`), and whenever decoding fails or the
gain/export stage fails it returns the original input bytes unchanged;
only a fully successful pipeline returns the re-exported audio. -/
theorem audioNormalize_fail_soft {Seg : Type} (ops : AudioOps Seg)
    (audio_data : Bytes) (format : String) :
    (∀ e, ops.from_file audio_data format = Except.error e →
      audioNormalize ops audio_data format = audio_data) ∧
    (∀ seg e, ops.from_file audio_data format = Except.ok seg →
      ops.export_bytes (ops.apply_gain seg (ops.target_dbfs - ops.dBFS seg)) format =
        Except.error e →
      audioNormalize ops audio_data format = audio_data) ∧
    (∀ seg out, ops.from_file audio_data format = Except.ok seg →
      ops.export_bytes (ops.apply_gain seg (ops.target_dbfs - ops.dBFS seg)) format =
        Except.ok out →
      audioNormalize ops audio_data format = out) := by
  refine ⟨fun e h1 => ?_, fun seg e h1 h2 => ?_, fun seg out h1 h2 => ?_⟩
  · simp [audioNormalize, h1]
  · simp [audioNormalize, h1, h2]
  · simp [audioNormalize, h1, h2]

/-- Concrete pydub collaborators over a unit segment type whose decode
step fails. -/
def audioOpsDecodeFail : AudioOps Unit :=
  { from_file := fun _ _ => Except.error (), dBFS := fun _ => 0,
    target_dbfs := -20, apply_gain := fun s _ => s,
    export_bytes := fun _ _ => Except.ok [9] }

/-- Concrete pydub collaborators over a unit segment type whose
gain/export step fails. -/
def audioOpsExportFail : AudioOps Unit :=
  { from_file := fun _ _ => Except.ok (), dBFS := fun _ => 0,
    target_dbfs := -20, apply_gain := fun s _ => s,
    export_bytes := fun _ _ => Except.error () }

/-- Concrete pydub collaborators over a unit segment type that fully
succeed, exporting `[9]`. -/
def audioOpsOk : AudioOps Unit :=
  { from_file := fun _ _ => Except.ok (), dBFS := fun _ => 0,
    target_dbfs := -20, apply_gain := fun s _ => s,
    export_bytes := fun _ _ => Except.ok [9] }

/-- Witness for C9 with concrete collaborators over a unit segment
type: a failing decoder and a failing exporter both return the input
unchanged. -/
theorem audioNormalize_fail_soft_witness :
    audioNormalize audioOpsDecodeFail [1, 2] "mp3" = [1, 2] ∧
    audioNormalize audioOpsExportFail [1, 2] "mp3" = [1, 2] ∧
    audioNormalize audioOpsOk [1, 2] "mp3" = [9] :=
  ⟨(audioNormalize_fail_soft audioOpsDecodeFail [1, 2] "mp3").1 () rfl,
    (audioNormalize_fail_soft audioOpsExportFail [1, 2] "mp3").2.1 () () rfl rfl,
    (audioNormalize_fail_soft audioOpsOk [1, 2] "mp3").2.2 () [9] rfl rfl⟩

/-! ## C8 — session loop error responses keep the connection usable -/

/-- C8: an inbound message whose tag is neither `"text"` nor `"audio"`
makes the session loop emit exactly the
`Invalid message type: <value>. Expected 'text' or 'audio'` error
response; a `"text"` message whose payload strips to empty emits the
`Empty text` error response. In both cases the synthesis collaborator
is not invoked, the pipeline state is untouched, and the loop goes on
to receive the next message (the connection stays open), so a
subsequent valid request is handled exactly as it would have been
before. -/
theorem session_loop_error_responses (normalize : Bytes → Bytes)
    (synthAttempts : String → List Attempt) (maxRetries : Nat) (sttFails : Bool)
    (st : PipelineState) (now : Int) (msg : WsMessage) :
    (msg.msg_type ≠ some "text" → msg.msg_type ≠ some "audio" →
      wsHandleMessage normalize synthAttempts maxRetries sttFails st now msg =
        { state := st
          out := [WsOut.errorMsg ("Invalid message type: " ++ typeRepr msg.msg_type ++
            ". Expected \x27text\x27 or \x27audio\x27")]
          ttsInvoked := false }) ∧
    (msg.msg_type = some "text" → pyStrip msg.text_field = "" →
      wsHandleMessage normalize synthAttempts maxRetries sttFails st now msg =
        { state := st, out := [WsOut.errorMsg "Empty text"], ttsInvoked := false }) := by
  constructor
  · intro h1 h2
    simp [wsHandleMessage, h1, h2]
  · intro h1 h2
    simp [wsHandleMessage, handleTextMsg, h1, h2]

/-- Witness for C8: a concrete `{"type": "invalid"}` message and a
concrete whitespace-only `"text"` message, on a concrete pipeline
state, each produce exactly the specified error response with the state
unchanged. -/
theorem session_loop_error_responses_witness :
    wsHandleMessage id (fun _ => []) 3 false
      ⟨⟨true, [], 0, 0⟩, mkCircuitBreaker 5 60 2⟩ 0 ⟨some "invalid", "", ""⟩ =
      { state := ⟨⟨true, [], 0, 0⟩, mkCircuitBreaker 5 60 2⟩
        out := [WsOut.errorMsg
          "Invalid message type: invalid. Expected \x27text\x27 or \x27audio\x27"]
        ttsInvoked := false } ∧
    wsHandleMessage id (fun _ => []) 3 false
      ⟨⟨true, [], 0, 0⟩, mkCircuitBreaker 5 60 2⟩ 0 ⟨some "text", "   ", ""⟩ =
      { state := ⟨⟨true, [], 0, 0⟩, mkCircuitBreaker 5 60 2⟩
        out := [WsOut.errorMsg "Empty text"]
        ttsInvoked := false } := by
  have h1 := session_loop_error_responses id (fun _ => []) 3 false
    ⟨⟨true, [], 0, 0⟩, mkCircuitBreaker 5 60 2⟩ 0 ⟨some "invalid", "", ""⟩
  have h2 := session_loop_error_responses id (fun _ => []) 3 false
    ⟨⟨true, [], 0, 0⟩, mkCircuitBreaker 5 60 2⟩ 0 ⟨some "text", "   ", ""⟩
  exact ⟨h1.1 (by decide) (by decide), h2.2 rfl (by decide)⟩

/-! ## String normalization lemmas for the cache key -/

/-- Every character of the list is Python whitespace. -/
def allSpace (l : List Char) : Prop := ∀ c ∈ l, isPySpace c = true

instance allSpace_decidable (l : List Char) : Decidable (allSpace l) :=
  inferInstanceAs (Decidable (∀ c ∈ l, isPySpace c = true))

/-- Lowercasing leaves whitespace characters unchanged. -/
theorem pyCharLower_space (c : Char) (h : isPySpace c = true) :
    pyCharLower c = c := by
  have h2 : ((((c.toNat = 32 ∨ c.toNat = 9) ∨ c.toNat = 10) ∨
      c.toNat = 13) ∨ c.toNat = 11) ∨ c.toNat = 12 := by
    simpa [isPySpace] using h
  unfold pyCharLower
  rw [if_neg (by omega)]

/-- Lowercasing leaves an all-whitespace list unchanged. -/
theorem map_lower_allSpace (u : List Char) (h : allSpace u) :
    u.map pyCharLower = u := by
  induction u with
  | nil => rfl
  | cons c l ih =>
    simp only [List.map_cons]
    rw [pyCharLower_space c (h c (by simp)), ih (fun d hd => h d (by simp [hd]))]

/-- `dropWhile` consumes a leading run of elements satisfying the
predicate. -/
theorem dropWhile_append_all {α : Type} (p : α → Bool) (u x : List α)
    (h : ∀ c ∈ u, p c = true) : (u ++ x).dropWhile p = x.dropWhile p := by
  induction u with
  | nil => rfl
  | cons a l ih =>
    simp only [List.cons_append, List.dropWhile_cons, h a (by simp), if_true]
    exact ih (fun c hc => h c (by simp [hc]))

/-- Leading whitespace does not affect `lstrip`. -/
theorem lstrip_append_space (u x : List Char) (hu : allSpace u) :
    lstripChars (u ++ x) = lstripChars x :=
  dropWhile_append_all isPySpace u x hu

/-- Trailing whitespace does not affect `rstrip`. -/
theorem rstrip_append_space (x v : List Char) (hv : allSpace v) :
    rstripChars (x ++ v) = rstripChars x := by
  unfold rstripChars
  rw [List.reverse_append,
    dropWhile_append_all isPySpace v.reverse x.reverse
      (fun c hc => hv c (by simpa using hc))]

/-- An all-whitespace list strips from the left to nothing. -/
theorem lstrip_space_nil (v : List Char) (hv : allSpace v) :
    lstripChars v = [] :=
  List.dropWhile_eq_nil_iff.mpr hv

/-- Leading whitespace does not affect `strip`. -/
theorem stripChars_append_left (u x : List Char) (hu : allSpace u) :
    stripChars (u ++ x) = stripChars x := by
  unfold stripChars
  rw [lstrip_append_space u x hu]

/-- Trailing whitespace does not affect `strip`. -/
theorem stripChars_append_right (x v : List Char) (hv : allSpace v) :
    stripChars (x ++ v) = stripChars x := by
  unfold stripChars
  rcases hx : lstripChars x with - | ⟨c, rest⟩
  · have h1 : lstripChars (x ++ v) = [] := by
      have hxall : ∀ c ∈ x, isPySpace c = true := List.dropWhile_eq_nil_iff.mp hx
      exact List.dropWhile_eq_nil_iff.mpr (by
        intro d hd
        rcases List.mem_append.mp hd with h | h
        · exact hxall d h
        · exact hv d h)
    rw [h1]
  · have h1 : lstripChars (x ++ v) = lstripChars x ++ v := by
      unfold lstripChars
      rw [List.dropWhile_append]
      have : (x.dropWhile isPySpace).isEmpty = false := by
        have : x.dropWhile isPySpace = c :: rest := hx
        rw [this]; rfl
      rw [this]
      simp
    rw [h1, rstrip_append_space _ v hv, hx]

/-- Whitespace padding on either side does not affect `strip`. -/
theorem stripChars_sandwich (u x v : List Char) (hu : allSpace u)
    (hv : allSpace v) : stripChars (u ++ x ++ v) = stripChars x := by
  rw [List.append_assoc, stripChars_append_left u (x ++ v) hu,
    stripChars_append_right x v hv]

/-- Two texts differ only in letter case or in leading/trailing
whitespace: both decompose into a whitespace run, a core, and a
whitespace run, with the cores equal after lowercasing. -/
def caseWsVariant (a b : String) : Prop :=
  ∃ u v u2 v2 ca cb : List Char,
    allSpace u ∧ allSpace v ∧ allSpace u2 ∧ allSpace v2 ∧
    a.data = u ++ ca ++ v ∧ b.data = u2 ++ cb ++ v2 ∧
    ca.map pyCharLower = cb.map pyCharLower

/-- The normalization `text.lower().strip()`, expressed on character
lists. -/
theorem normalizeText_eq (s : String) :
    normalizeText s = String.mk (stripChars (s.data.map pyCharLower)) := rfl

/-- Texts differing only in case or surrounding whitespace normalize
identically. -/
theorem normalizeText_of_variant (a b : String) (h : caseWsVariant a b) :
    normalizeText a = normalizeText b := by
  obtain ⟨u, v, u2, v2, ca, cb, hu, hv, hu2, hv2, ha, hb, hlow⟩ := h
  rw [normalizeText_eq, normalizeText_eq, ha, hb]
  simp only [List.map_append]
  rw [map_lower_allSpace u hu, map_lower_allSpace v hv,
    map_lower_allSpace u2 hu2, map_lower_allSpace v2 hv2,
    stripChars_sandwich u (ca.map pyCharLower) v hu hv,
    stripChars_sandwich u2 (cb.map pyCharLower) v2 hu2 hv2, hlow]

/-! ## C4 — cache keys: case/whitespace insensitivity and the key scheme -/

/-- C4: texts that differ only in letter case or in leading/trailing
whitespace map to the same cache key, and every key is the literal
`"tts:audio:"` followed by the lowercase hex digest of the SHA-256 hash
of the lowercased, whitespace-trimmed text encoded as UTF-8. -/
theorem cache_key_case_ws_insensitive (a b : String) (h : caseWsVariant a b) :
    generate_key a = generate_key b ∧
    ∀ t : String, generate_key t =
      "tts:audio:" ++
        SHA256.bytesToHex (SHA256.sha256 (utf8Bytes (pyStrip (pyLower t)))) := by
  refine ⟨?_, fun t => rfl⟩
  unfold generate_key
  rw [normalizeText_of_variant a b h]

/-- Witness for C4: `"  HELLO "` and `"hello"` share one cache key, and
the key for `"hello"` is the `tts:audio:`-prefixed SHA-256 hex digest
of `"hello"` (the well-known digest `2cf24dba...`). -/
theorem cache_key_case_ws_insensitive_witness :
    generate_key "  HELLO " = generate_key "hello" ∧
    generate_key "hello" =
      "tts:audio:2cf24dba5fb0a30e26e83b2ac5b9e29e1b161e5c1fa7425e73043362938b9824" := by
  have h := cache_key_case_ws_insensitive "  HELLO " "hello"
    ⟨[' ', ' '], [' '], [], [], "HELLO".data, "hello".data,
      by decide, by decide, by decide, by decide, by decide, by decide, by decide⟩
  exact ⟨h.1, by decide⟩

/-! ## Dispatch lemmas for the session loop TTS path -/

/-- A CLOSED breaker admits the call unchanged. -/
theorem admitOp_closed (cb : CircuitBreaker) (now : Int)
    (h : cb.state = CircuitState.CLOSED) : cb.admitOp now = some cb := by
  simp [CircuitBreaker.admitOp, h]

/-- A dispatch through a CLOSED breaker whose retried synthesis
succeeds returns the bytes, records a success, and invokes the
collaborator. -/
theorem dispatchTTS_closed_success (cb : CircuitBreaker) (now : Int)
    (attempts : List Attempt) (maxRetries : Nat) (b : Bytes)
    (hclosed : cb.state = CircuitState.CLOSED)
    (hsynth : tenacityRun maxRetries attempts = some b) :
    dispatchTTS cb now attempts maxRetries =
      (CircuitBreaker.CallResult.returned b, cb.on_success, true) := by
  unfold dispatchTTS
  rw [hsynth]
  unfold CircuitBreaker.call
  rw [admitOp_closed cb now hclosed]
  rfl

/-- The session loop's TTS path on a cache miss with a CLOSED breaker
and successful synthesis: the synthesizer is invoked, the miss is
counted, the raw bytes are cached, a success is recorded, and the
response carries the normalized bytes with `cached = false`. -/
theorem handleTextMsg_miss_success (normalize : Bytes → Bytes)
    (synthAttempts : String → List Attempt) (maxRetries : Nat)
    (st : PipelineState) (now : Int) (rawText : String) (b : Bytes)
    (htext : ¬pyStrip rawText = "")
    (hconn : st.cache.connected = true)
    (hmiss : storeLookup st.cache.store (generate_key (pyStrip rawText)) = none)
    (hclosed : st.breaker.state = CircuitState.CLOSED)
    (hsynth : tenacityRun maxRetries (synthAttempts (pyStrip rawText)) = some b) :
    handleTextMsg normalize synthAttempts maxRetries st now rawText =
      { state :=
          { cache :=
              { st.cache with
                misses := st.cache.misses + 1
                store := storeInsert st.cache.store (generate_key (pyStrip rawText)) b }
            breaker := st.breaker.on_success }
        out := [WsOut.audioMsg (normalize b) false]
        ttsInvoked := true } := by
  simp only [handleTextMsg]
  rw [if_neg htext, cacheGet_miss st.cache (pyStrip rawText) hconn hmiss,
    dispatchTTS_closed_success st.breaker now (synthAttempts (pyStrip rawText))
      maxRetries b hclosed hsynth]
  dsimp only
  rw [cacheSet_ok { st.cache with misses := st.cache.misses + 1 }
    (pyStrip rawText) b hconn]

/-- The session loop's TTS path on a cache hit of nonempty bytes: the
synthesizer is not invoked, the breaker is untouched, the hit is
counted, and the response carries the normalized cached bytes with
`cached = true`. -/
theorem handleTextMsg_hit (normalize : Bytes → Bytes)
    (synthAttempts : String → List Attempt) (maxRetries : Nat)
    (st : PipelineState) (now : Int) (rawText : String) (d : Bytes)
    (htext : ¬pyStrip rawText = "")
    (hconn : st.cache.connected = true)
    (hhit : storeLookup st.cache.store (generate_key (pyStrip rawText)) = some d)
    (hd : d ≠ []) :
    handleTextMsg normalize synthAttempts maxRetries st now rawText =
      { state :=
          { cache := { st.cache with hits := st.cache.hits + 1 }
            breaker := st.breaker }
        out := [WsOut.audioMsg (normalize d) true]
        ttsInvoked := false } := by
  simp only [handleTextMsg]
  rw [if_neg htext, cacheGet_hit st.cache (pyStrip rawText) d hconn hhit hd]

/-! ## C3 — dedup dispatch: second request for the same text -/

/-- First REST `/api/tts` run of the C3 counterexample: empty cache,
CLOSED breaker, synthesis yields `[1, 2, 3]`, and normalization
prepends a `0` byte. -/
def restRun1 : RestStepResult :=
  text_to_speech_endpoint (fun b => 0 :: b) (fun _ => [Attempt.ok [1, 2, 3]]) 3
    ⟨⟨true, [], 0, 0⟩, mkCircuitBreaker 5 60 2⟩ 0 "hello" true

/-- Second REST `/api/tts` run of the C3 counterexample, on the state
left by the first. -/
def restRun2 : RestStepResult :=
  text_to_speech_endpoint (fun b => 0 :: b) (fun _ => [Attempt.ok [1, 2, 3]]) 3
    restRun1.state 0 "hello" true

/-- First WebSocket TTS run with a synthesis collaborator returning
empty bytes. -/
def wsRunEmpty1 : WsStepResult :=
  wsHandleMessage id (fun _ => [Attempt.ok []]) 3 false
    ⟨⟨true, [], 0, 0⟩, mkCircuitBreaker 5 60 2⟩ 0 ⟨some "text", "hello", ""⟩

/-- Second WebSocket TTS run with the empty-bytes collaborator, on the
state left by the first. -/
def wsRunEmpty2 : WsStepResult :=
  wsHandleMessage id (fun _ => [Attempt.ok []]) 3 false
    wsRunEmpty1.state 0 ⟨some "text", "hello", ""⟩

/-- A WebSocket TTS run on an empty cache with an OPEN breaker inside
its timeout window. -/
def wsRunOpenBreaker : WsStepResult :=
  wsHandleMessage id (fun _ => [Attempt.ok [7]]) 3 false
    ⟨⟨true, [], 0, 0⟩, cbOpenEx⟩ 1 ⟨some "text", "hello", ""⟩

/-- Counterexample to C3 as stated, in three parts. (i) On the REST
endpoint the second dispatch of `"hello"` returns the cached raw bytes
`[1, 2, 3]` while the first returned the normalized bytes
`[0, 1, 2, 3]` — the bytes are not identical, because the hit path
skips normalization. (ii) On the WebSocket flow, when synthesis
succeeds with empty bytes, the second dispatch is a miss (`if data:`
is falsy), so the synthesis collaborator is invoked again and the
cached flag stays false. (iii) With the breaker OPEN inside its
timeout, a dispatch with no cache entry does not invoke the synthesis
collaborator and produces an error instead of a `cached = false`
response. -/
theorem dispatch_second_identical_counterexample :
    (restRun1.result = RestResult.okResp [0, 1, 2, 3] false ∧
     restRun2.result = RestResult.okResp [1, 2, 3] true ∧
     restRun2.result ≠ RestResult.okResp [0, 1, 2, 3] true) ∧
    (wsRunEmpty1.ttsInvoked = true ∧ wsRunEmpty2.ttsInvoked = true ∧
     wsRunEmpty2.out = [WsOut.audioMsg [] false]) ∧
    (wsRunOpenBreaker.ttsInvoked = false ∧
     wsRunOpenBreaker.out = [WsOut.ttsErrorMsg]) := by
  decide

/-- C3 (amended): on the WebSocket flow, with the store available, the
breaker CLOSED, and the synthesis collaborator succeeding with
nonempty bytes, a dispatch with no cache entry for the text invokes
the synthesis collaborator and responds `cached = false`; the
immediately subsequent dispatch of the same text is a hit: it does not
invoke the synthesis collaborator, responds `cached = true`, and
carries bytes identical to the first response (both are the
normalization of the same stored bytes). On the REST endpoint the
second dispatch is likewise a synthesis-free hit, but it returns the
cached raw bytes, which coincide with the first response only when
normalization fixes them. -/
theorem ws_dispatch_dedup (normalize : Bytes → Bytes)
    (synthAttempts : String → List Attempt) (maxRetries : Nat) (sttFails : Bool)
    (st : PipelineState) (now now2 : Int) (rawText : String) (b : Bytes)
    (htext : ¬pyStrip rawText = "")
    (hconn : st.cache.connected = true)
    (hmiss : storeLookup st.cache.store (generate_key (pyStrip rawText)) = none)
    (hclosed : st.breaker.state = CircuitState.CLOSED)
    (hsynth : tenacityRun maxRetries (synthAttempts (pyStrip rawText)) = some b)
    (hb : b ≠ []) :
    (wsHandleMessage normalize synthAttempts maxRetries sttFails st now
        ⟨some "text", rawText, ""⟩).ttsInvoked = true ∧
    (wsHandleMessage normalize synthAttempts maxRetries sttFails st now
        ⟨some "text", rawText, ""⟩).out = [WsOut.audioMsg (normalize b) false] ∧
    (wsHandleMessage normalize synthAttempts maxRetries sttFails
        (wsHandleMessage normalize synthAttempts maxRetries sttFails st now
          ⟨some "text", rawText, ""⟩).state now2
        ⟨some "text", rawText, ""⟩).ttsInvoked = false ∧
    (wsHandleMessage normalize synthAttempts maxRetries sttFails
        (wsHandleMessage normalize synthAttempts maxRetries sttFails st now
          ⟨some "text", rawText, ""⟩).state now2
        ⟨some "text", rawText, ""⟩).out = [WsOut.audioMsg (normalize b) true] := by
  have hws : ∀ m : Int, ∀ s : PipelineState,
      wsHandleMessage normalize synthAttempts maxRetries sttFails s m
        ⟨some "text", rawText, ""⟩ =
      handleTextMsg normalize synthAttempts maxRetries s m rawText := by
    intro m s
    simp [wsHandleMessage]
  have h1 := handleTextMsg_miss_success normalize synthAttempts maxRetries st now
    rawText b htext hconn hmiss hclosed hsynth
  rw [hws, h1]
  have h2 := handleTextMsg_hit normalize synthAttempts maxRetries
    { cache :=
        { st.cache with
          misses := st.cache.misses + 1
          store := storeInsert st.cache.store (generate_key (pyStrip rawText)) b }
      breaker := st.breaker.on_success } now2 rawText b htext hconn
    (storeLookup_insert_self st.cache.store (generate_key (pyStrip rawText)) b) hb
  rw [hws, h2]
  exact ⟨rfl, rfl, rfl, rfl⟩

/-- Witness for C3 (amended): concrete run with identity normalization,
synthesis returning `[7]` for every text, an empty connected cache and
a fresh breaker: the first dispatch of `"Hi"` synthesizes and responds
`cached = false`; the second is a synthesis-free hit with the same
bytes and `cached = true`. -/
theorem ws_dispatch_dedup_witness :
    (wsHandleMessage id (fun _ => [Attempt.ok [7]]) 3 false
        ⟨⟨true, [], 0, 0⟩, mkCircuitBreaker 5 60 2⟩ 0
        ⟨some "text", "Hi", ""⟩).ttsInvoked = true ∧
    (wsHandleMessage id (fun _ => [Attempt.ok [7]]) 3 false
        ⟨⟨true, [], 0, 0⟩, mkCircuitBreaker 5 60 2⟩ 0
        ⟨some "text", "Hi", ""⟩).out = [WsOut.audioMsg (id [7]) false] ∧
    (wsHandleMessage id (fun _ => [Attempt.ok [7]]) 3 false
        (wsHandleMessage id (fun _ => [Attempt.ok [7]]) 3 false
          ⟨⟨true, [], 0, 0⟩, mkCircuitBreaker 5 60 2⟩ 0
          ⟨some "text", "Hi", ""⟩).state 0
        ⟨some "text", "Hi", ""⟩).ttsInvoked = false ∧
    (wsHandleMessage id (fun _ => [Attempt.ok [7]]) 3 false
        (wsHandleMessage id (fun _ => [Attempt.ok [7]]) 3 false
          ⟨⟨true, [], 0, 0⟩, mkCircuitBreaker 5 60 2⟩ 0
          ⟨some "text", "Hi", ""⟩).state 0
        ⟨some "text", "Hi", ""⟩).out = [WsOut.audioMsg (id [7]) true] :=
  ws_dispatch_dedup id (fun _ => [Attempt.ok [7]]) 3 false
    ⟨⟨true, [], 0, 0⟩, mkCircuitBreaker 5 60 2⟩ 0 0 "Hi" [7]
    (by decide) rfl rfl rfl rfl (by decide)
